import Mathlib

/-!
# Verification of `shift_tiles.py`

A shallow embedding of the tile-shifting module `shift_tiles.py` together
with theorems checking its natural-language specification.

Modelling conventions:

* Geographic coordinates and affine-transform coefficients are embedded as
  exact rationals (`ℚ`).  The Python code computes with IEEE doubles; every
  claim settled here is stated over exact arithmetic.
* Pixel values are natural numbers.  The rasters handled by the module are
  single-band byte rasters, so array elements are values of numpy dtype
  `uint8`; element-wise numpy arithmetic on them wraps modulo `2 ^ 8`, which
  the embedding makes explicit with `% 256`.  `np.sum` promotes a `uint8`
  array to a platform-word accumulator, which is exact for any raster of
  fewer than `2 ^ 56` pixels; the embedding uses the exact natural-number
  sum.
* `gdal.Band.ReadAsArray(xoff, yoff, xsize, ysize)` fails when the
  requested window has a non-positive size or extends beyond the band;
  it is embedded as an `Option`-valued read.  The Python module never
  catches that failure, so functions that perform window reads return
  `Except Unit _`: `Except.error ()` models the uncaught exception
  escaping the function.
-/

namespace ShiftTiles

/-- The four edge flags of `shift_tiles.py` (`W = 1<<0`). -/
def W : ℕ := 1

/-- The flag `N = 1<<1`. -/
def N : ℕ := 2

/-- The flag `E = 1<<2`. -/
def E : ℕ := 4

/-- The flag `S = 1<<3`. -/
def S : ℕ := 8

/-- A 6-parameter affine geotransform `gt[0] .. gt[5]`, embedded with exact
rational coefficients. -/
structure GeoTransform where
  c0 : ℚ
  c1 : ℚ
  c2 : ℚ
  c3 : ℚ
  c4 : ℚ
  c5 : ℚ

/-- A 2-D pixel array (`numpy` array of shape `nrows × ncols`); `data i j`
is the sample at row `i`, column `j`.  Only indices below the bounds are
meaningful. -/
structure PixelArray where
  nrows : ℕ
  ncols : ℕ
  data : ℕ → ℕ → ℕ

/-- A raster band: a `nrows × ncols` grid of samples addressed by
`data row col`. -/
structure Band where
  nrows : ℕ
  ncols : ℕ
  data : ℕ → ℕ → ℕ

/-- Function `calc_xy(gt, col, row)` from `shift_tiles.py` (lines 33-36): the forward
affine map from grid coordinates to geographic coordinates,
`x = gt[0] + col*gt[1] + row*gt[2]`, `y = gt[3] + col*gt[4] + row*gt[5]`. -/
def calc_xy (gt : GeoTransform) (col row : ℚ) : ℚ × ℚ :=
  (gt.c0 + col * gt.c1 + row * gt.c2, gt.c3 + col * gt.c4 + row * gt.c5)

/-- Function `calc_colrow(gt, x, y)` from `shift_tiles.py` (lines 38-41): the inverse
affine map, in the closed form used by the source.  The source performs the
two divisions with no degeneracy check; the embedding uses total rational
division (which agrees with the source whenever the determinant
`gt[1]*gt[5] - gt[2]*gt[4]` is nonzero). -/
def calc_colrow (gt : GeoTransform) (x y : ℚ) : ℚ × ℚ :=
  ((x * gt.c5 - y * gt.c2 - gt.c0 * gt.c5 + gt.c2 * gt.c3) /
      (gt.c1 * gt.c5 - gt.c2 * gt.c4),
   (x * gt.c4 - y * gt.c1 - gt.c0 * gt.c4 + gt.c1 * gt.c3) /
      (gt.c2 * gt.c4 - gt.c1 * gt.c5))

/-- Method `band.ReadAsArray(c, r, ncols, nrows)`: reads the `nrows × ncols` window
of `b` whose north-west corner is at column `c`, row `r`.  GDAL fails the
read (and the Python bindings surface an error) when the window is empty or
extends beyond the band, modelled by `none`. -/
def ReadAsArray (b : Band) (c r : ℤ) (ncols nrows : ℕ) : Option PixelArray :=
  if 0 < ncols ∧ 0 < nrows ∧ 0 ≤ c ∧ 0 ≤ r ∧
      c + (ncols : ℤ) ≤ (b.ncols : ℤ) ∧ r + (nrows : ℤ) ≤ (b.nrows : ℤ) then
    some ⟨nrows, ncols, fun i j => b.data (r.toNat + i) (c.toNat + j)⟩
  else
    none

/-- The numpy slice `outa[skipn:nrows-skips, skipw:ncols-skipe]` used at
line 47 of `shift_tiles.py`: drop `skipn` rows from the north, `skips` rows
from the south, `skipw` columns from the west and `skipe` columns from the
east.  (For the margins used by the module the slice stops are
non-negative, where Python slicing yields exactly these bounds.) -/
def trimArray (a : PixelArray) (skipw skipn skipe skips : ℕ) : PixelArray :=
  ⟨a.nrows - skips - skipn, a.ncols - skipe - skipw,
   fun i j => a.data (skipn + i) (skipw + j)⟩

/-- Lines 46-49 of `shift_tiles.py`: the output array is sliced only when at
least one margin is nonzero. -/
def skipArray (a : PixelArray) (skipw skipn skipe skips : ℕ) : PixelArray :=
  if skipw + skipn + skipe + skips ≠ 0 then trimArray a skipw skipn skipe skips
  else a

/-- Line 51 of `shift_tiles.py`: `outnwxy = calc_xy(outgt, skipw, skipn)`,
the geographic coordinate of the trimmed array's north-west corner. -/
def outNW (outgt : GeoTransform) (skipw skipn : ℕ) : ℚ × ℚ :=
  calc_xy outgt skipw skipn

/-- Lines 52-53 of `shift_tiles.py`: map the trimmed north-west corner into
the reference grid with `calc_colrow` and floor both coordinates
(`[int(x) for x in np.floor(outnwcr)]`). -/
def nwFloor (refgt outgt : GeoTransform) (skipw skipn : ℕ) : ℤ × ℤ :=
  (⌊(calc_colrow refgt (outNW outgt skipw skipn).1 (outNW outgt skipw skipn).2).1⌋,
   ⌊(calc_colrow refgt (outNW outgt skipw skipn).1 (outNW outgt skipw skipn).2).2⌋)

/-- Line 60 of `shift_tiles.py`:
`np.sum(np.where(outa < 255, outa - 1 - refouta, 0))`.
Both arrays are `uint8`, so the element-wise `outa - 1 - refouta` wraps
modulo `256` — as a natural number, `(outa + 511 - refouta) % 256` for byte
values — and `np.where` keeps that wrapped (non-negative) value exactly for
the pixels strictly below the no-data sentinel `255`.  `np.sum` then adds
the selected values in a platform-word accumulator, exact below `2 ^ 56`
pixels, which the embedding renders as the exact sum. -/
def diffsum (outa refa : PixelArray) : ℕ :=
  ∑ i ∈ Finset.range outa.nrows, ∑ j ∈ Finset.range outa.ncols,
    if outa.data i j < 255 then (outa.data i j + 511 - refa.data i j) % 256
    else 0

/-- The four candidate grid-origin offsets of the `for coff in range(2): for
roff in range(2):` loop (lines 55-56), in the order the loop visits them:
column offset in the outer loop, row offset in the inner loop. -/
def candOffsets : List (ℤ × ℤ) := [(0, 0), (0, 1), (1, 0), (1, 1)]

/-- The body of the candidate loop of `calc_shift_skip` (lines 55-66): for
each candidate offset in turn, read the reference window at the candidate
origin (an out-of-bounds read raises in Python and is modelled as
`Except.error ()`), and if the difference sum is zero return the geographic
shift `calc_xy(refgt, c, r) - outnwxy`; falling off the loop returns `None`
(`Except.ok none`). -/
def tryCandidates (rb : Band) (refgt : GeoTransform) (outa2 : PixelArray)
    (nw : ℚ × ℚ) (cf rf : ℤ) : List (ℤ × ℤ) → Except Unit (Option (ℚ × ℚ))
  | [] => Except.ok none
  | off :: rest =>
    match ReadAsArray rb (cf + off.1) (rf + off.2) outa2.ncols outa2.nrows with
    | none => Except.error ()
    | some refouta =>
      if diffsum outa2 refouta = 0 then
        Except.ok (some (calc_xy refgt (cf + off.1) (rf + off.2) - nw))
      else tryCandidates rb refgt outa2 nw cf rf rest

/-- Function `calc_shift_skip(refband, refgt, outa, outgt, skipw, skipn, skipe,
skips)` from `shift_tiles.py` (lines 43-66): trim the output array by the
margins, map its north-west corner into the reference grid, floor, and test
the four candidate origins in loop order. -/
def calc_shift_skip (rb : Band) (refgt : GeoTransform) (outa : PixelArray)
    (outgt : GeoTransform) (skipw skipn skipe skips : ℕ) :
    Except Unit (Option (ℚ × ℚ)) :=
  tryCandidates rb refgt (skipArray outa skipw skipn skipe skips)
    (outNW outgt skipw skipn)
    (nwFloor refgt outgt skipw skipn).1 (nwFloor refgt outgt skipw skipn).2
    candOffsets

/-- Function `calc_shift(refband, refgt, outband, outgt)` from `shift_tiles.py`
(lines 68-173), taking the output band's full-resolution array `outa`
(line 69, `outa = outband.ReadAsArray()`, the always-successful whole-band
read) directly.  Each Python block
`shift = calc_shift_skip(...); if shift is not None: return shift, MASK`
becomes one `match`: a raised exception propagates (`Except.error`), a
found shift returns with its mask, and `None` falls through to the next
trial; after the last trial the function returns `None, None`
(`Except.ok none`). -/
def calc_shift (rb : Band) (refgt : GeoTransform) (outa : PixelArray)
    (outgt : GeoTransform) : Except Unit (Option ((ℚ × ℚ) × ℕ)) :=
  match calc_shift_skip rb refgt outa outgt 0 0 0 0 with
  | Except.error e => Except.error e
  | Except.ok (some s) => Except.ok (some (s, 0))
  | Except.ok none =>
    let ncols := outa.ncols
    let nrows := outa.nrows
    let skipwe := ncols / 3
    let skipns := nrows / 3
    match calc_shift_skip rb refgt outa outgt skipwe 0 0 0 with
    | Except.error e => Except.error e
    | Except.ok (some s) => Except.ok (some (s, W))
    | Except.ok none =>
      match calc_shift_skip rb refgt outa outgt 0 skipns 0 0 with
      | Except.error e => Except.error e
      | Except.ok (some s) => Except.ok (some (s, N))
      | Except.ok none =>
        match calc_shift_skip rb refgt outa outgt 0 0 skipwe 0 with
        | Except.error e => Except.error e
        | Except.ok (some s) => Except.ok (some (s, E))
        | Except.ok none =>
          match calc_shift_skip rb refgt outa outgt 0 0 0 skipns with
          | Except.error e => Except.error e
          | Except.ok (some s) => Except.ok (some (s, S))
          | Except.ok none =>
            match calc_shift_skip rb refgt outa outgt skipwe skipns 0 0 with
            | Except.error e => Except.error e
            | Except.ok (some s) => Except.ok (some (s, W ||| N))
            | Except.ok none =>
              match calc_shift_skip rb refgt outa outgt skipwe 0 skipwe 0 with
              | Except.error e => Except.error e
              | Except.ok (some s) => Except.ok (some (s, W ||| E))
              | Except.ok none =>
                match calc_shift_skip rb refgt outa outgt skipwe 0 0 skipns with
                | Except.error e => Except.error e
                | Except.ok (some s) => Except.ok (some (s, W ||| S))
                | Except.ok none =>
                  match calc_shift_skip rb refgt outa outgt 0 skipns skipwe 0 with
                  | Except.error e => Except.error e
                  | Except.ok (some s) => Except.ok (some (s, N ||| E))
                  | Except.ok none =>
                    match calc_shift_skip rb refgt outa outgt 0 skipns 0 skipns with
                    | Except.error e => Except.error e
                    | Except.ok (some s) => Except.ok (some (s, N ||| S))
                    | Except.ok none =>
                      match calc_shift_skip rb refgt outa outgt 0 0 skipwe skipns with
                      | Except.error e => Except.error e
                      | Except.ok (some s) => Except.ok (some (s, E ||| S))
                      | Except.ok none =>
                        match calc_shift_skip rb refgt outa outgt skipwe skipns skipwe 0 with
                        | Except.error e => Except.error e
                        | Except.ok (some s) => Except.ok (some (s, W ||| N ||| E))
                        | Except.ok none =>
                          match calc_shift_skip rb refgt outa outgt skipwe skipns 0 skipns with
                          | Except.error e => Except.error e
                          | Except.ok (some s) => Except.ok (some (s, W ||| N ||| S))
                          | Except.ok none =>
                            match calc_shift_skip rb refgt outa outgt skipwe 0 skipwe skipns with
                            | Except.error e => Except.error e
                            | Except.ok (some s) => Except.ok (some (s, W ||| E ||| S))
                            | Except.ok none =>
                              match calc_shift_skip rb refgt outa outgt 0 skipns skipwe skipns with
                              | Except.error e => Except.error e
                              | Except.ok (some s) => Except.ok (some (s, N ||| E ||| S))
                              | Except.ok none =>
                                match calc_shift_skip rb refgt outa outgt skipwe skipns skipwe skipns with
                                | Except.error e => Except.error e
                                | Except.ok (some s) => Except.ok (some (s, W ||| N ||| E ||| S))
                                | Except.ok none => Except.ok none

/-- A raster as seen by the top-level `shift` operation: the geotransform,
the (single) band's full pixel array, the band's no-data value
(`GetNoDataValue`, absent when unset) and the projection (uninterpreted by the
module, represented by a token). -/
structure Raster where
  gt : GeoTransform
  arr : PixelArray
  nodata : Option ℚ
  projection : ℕ

/-- Function `shift(refband, refgt, outfile, newfile)` from `shift_tiles.py`
(lines 175-197), with the opened output raster passed as a value and the
written output file rendered as the returned `Raster`: when `calc_shift`
finds no shift the function prints and returns without creating a file
(`Except.ok none`); otherwise the sole file written is a raster whose
geotransform origin is offset by the shift (`outgt[0] += shift[0]`,
`outgt[3] += shift[1]`) and whose pixel data, no-data value and projection
are copied from the source. -/
def shift (rb : Band) (refgt : GeoTransform) (outrast : Raster) :
    Except Unit (Option Raster) :=
  match calc_shift rb refgt outrast.arr outrast.gt with
  | Except.error e => Except.error e
  | Except.ok none => Except.ok none
  | Except.ok (some (s, _)) =>
    Except.ok (some
      { gt := { c0 := outrast.gt.c0 + s.1, c1 := outrast.gt.c1,
                c2 := outrast.gt.c2, c3 := outrast.gt.c3 + s.2,
                c4 := outrast.gt.c4, c5 := outrast.gt.c5 },
        arr := outrast.arr,
        nodata := outrast.nodata,
        projection := outrast.projection })

/-! ## Specification-side definitions

The following definitions transcribe the specification's words (they are
compared with the source-side definitions above by the refinement
theorems; they are not translations of the source). -/

/-- Spec-side candidate scan for the single-margin test: visit the 2×2
neighbourhood of integer grid origins in the fixed order
`(0,0), (0,1), (1,0), (1,1)`; a candidate whose window read fails counts as
a failing candidate and the scan moves on; on the first candidate whose
consistency sum is zero return
`toGeo(refgt, c, r) - toGeo(outgt, skipw, skipn)`; if no candidate is
consistent return no-match (`none`), never an error. -/
def findFirstShift (rb : Band) (refgt : GeoTransform) (outa2 : PixelArray)
    (nw : ℚ × ℚ) (cf rf : ℤ) : List (ℤ × ℤ) → Option (ℚ × ℚ)
  | [] => none
  | off :: rest =>
    match ReadAsArray rb (cf + off.1) (rf + off.2) outa2.ncols outa2.nrows with
    | none => findFirstShift rb refgt outa2 nw cf rf rest
    | some refouta =>
      if diffsum outa2 refouta = 0 then
        some (calc_xy refgt (cf + off.1) (rf + off.2) - nw)
      else findFirstShift rb refgt outa2 nw cf rf rest

/-- Spec-side single-margin test: trim the output array by the margins, map
the trimmed array's north-west corner through the output transform to
geographic coordinates, map it back through the inverse reference
transform, floor to integers, and scan the four candidates in the fixed
order. -/
def calcShiftSkipSpec (rb : Band) (refgt : GeoTransform) (outa : PixelArray)
    (outgt : GeoTransform) (skipw skipn skipe skips : ℕ) : Option (ℚ × ℚ) :=
  findFirstShift rb refgt (skipArray outa skipw skipn skipe skips)
    (calc_xy outgt skipw skipn)
    (nwFloor refgt outgt skipw skipn).1 (nwFloor refgt outgt skipw skipn).2
    candOffsets

/-- The margin tuple `(skipw, skipn, skipe, skips)` belonging to an edge
subset: an excluded west or east edge contributes the west-east margin
`skipwe`, an excluded north or south edge the north-south margin `skipns`
(bit 0 = `WEST`, bit 1 = `NORTH`, bit 2 = `EAST`, bit 3 = `SOUTH`). -/
def maskMargins (skipwe skipns m : ℕ) : ℕ × ℕ × ℕ × ℕ :=
  (if m.testBit 0 then skipwe else 0,
   if m.testBit 1 then skipns else 0,
   if m.testBit 2 then skipwe else 0,
   if m.testBit 3 then skipns else 0)

/-- The fixed priority order of the 15 non-empty subsets of
`{WEST, NORTH, EAST, SOUTH}`: increasing subset size, and within each size
the combinations over the edge list `W, N, E, S` in lexicographic order —
sizes one `W, N, E, S` (`1, 2, 4, 8`), sizes two
`WN, WE, WS, NE, NS, ES` (`3, 5, 9, 6, 10, 12`), sizes three
`WNE, WNS, WES, NES` (`7, 11, 13, 14`), then all four edges (`15`). -/
def maskOrder : List ℕ := [1, 2, 4, 8, 3, 5, 9, 6, 10, 12, 7, 11, 13, 14, 15]

/-- Spec-side orchestration loop: run the single-margin test for each edge
subset in the given order; return the first success paired with that
subset's overlap mask; an exception raised by a trial propagates; an
exhausted list is "no match / no overlap". -/
def tryMasks (rb : Band) (refgt : GeoTransform) (outa : PixelArray)
    (outgt : GeoTransform) (skipwe skipns : ℕ) :
    List ℕ → Except Unit (Option ((ℚ × ℚ) × ℕ))
  | [] => Except.ok none
  | m :: rest =>
    match calc_shift_skip rb refgt outa outgt
        (maskMargins skipwe skipns m).1 (maskMargins skipwe skipns m).2.1
        (maskMargins skipwe skipns m).2.2.1
        (maskMargins skipwe skipns m).2.2.2 with
    | Except.error e => Except.error e
    | Except.ok (some s) => Except.ok (some (s, m))
    | Except.ok none => tryMasks rb refgt outa outgt skipwe skipns rest

/-- Spec-side `findShift`: try the single-margin test with zero margin
first (overlap mask `0` on success); if it reports no match, compute
`skipwe = floor(ncols/3)` and `skipns = floor(nrows/3)` and try the 15
non-empty edge subsets in the fixed priority order. -/
def findShiftSpec (rb : Band) (refgt : GeoTransform) (outa : PixelArray)
    (outgt : GeoTransform) : Except Unit (Option ((ℚ × ℚ) × ℕ)) :=
  match calc_shift_skip rb refgt outa outgt 0 0 0 0 with
  | Except.error e => Except.error e
  | Except.ok (some s) => Except.ok (some (s, 0))
  | Except.ok none =>
    tryMasks rb refgt outa outgt (outa.ncols / 3) (outa.nrows / 3) maskOrder

/-- The consistency accumulation exactly as claim C3 words it: the exact
integer sum of `(outputValue - 1) - referenceValue` over the pixels whose
value is strictly below the no-data sentinel `255`. -/
def diffsumSpec (outa refa : PixelArray) : ℤ :=
  ∑ i ∈ Finset.range outa.nrows, ∑ j ∈ Finset.range outa.ncols,
    if outa.data i j < 255 then (outa.data i j : ℤ) - 1 - (refa.data i j : ℤ)
    else 0

/-! ## Theorems -/

/-- C1: for every reference band/transform and output array/transform,
`calc_shift` first runs the single-margin test with zero margin (returning
its shift with overlap mask `0` on success); if that reports no match it
computes `skipwe = floor(ncols/3)` and `skipns = floor(nrows/3)` and runs
the single-margin test for the 15 non-empty subsets of
`{WEST, NORTH, EAST, SOUTH}` in increasing order of subset size and, within
each size, with the edges enumerated in the fixed order `W, N, E, S`
(`1, 2, 4, 8`, then `3, 5, 9, 6, 10, 12`, then `7, 11, 13, 14`, then `15`),
returning the shift of the first subset that succeeds paired with that
subset's overlap mask, and returning no-match only after all 15 subsets
fail. -/
theorem calc_shift_eq_findShiftSpec (rb : Band) (refgt : GeoTransform)
    (outa : PixelArray) (outgt : GeoTransform) :
    calc_shift rb refgt outa outgt = findShiftSpec rb refgt outa outgt := rfl

/-- C4: for every affine transform with nonzero determinant
`c1*c5 - c2*c4` and every grid coordinate, the inverse map `calc_colrow`
undoes the forward map `calc_xy` exactly (over the exact rational
arithmetic of the embedding). -/
theorem calc_colrow_calc_xy_roundtrip (gt : GeoTransform) (col row : ℚ)
    (h : gt.c1 * gt.c5 - gt.c2 * gt.c4 ≠ 0) :
    calc_colrow gt (calc_xy gt col row).1 (calc_xy gt col row).2 =
      (col, row) := by
  have h2 : gt.c2 * gt.c4 - gt.c1 * gt.c5 ≠ 0 := by
    intro hc
    exact h (by linarith)
  simp only [calc_colrow, calc_xy, Prod.mk.injEq]
  constructor
  · rw [div_eq_iff h]
    ring
  · rw [div_eq_iff h2]
    ring

/-- Witness for C4 at the transform `(0, 1, 0, 0, 0, 1)` and grid point
`(2, 3)`. -/
theorem calc_colrow_calc_xy_roundtrip_witness :
    calc_colrow ⟨0, 1, 0, 0, 0, 1⟩
      (calc_xy ⟨0, 1, 0, 0, 0, 1⟩ 2 3).1
      (calc_xy ⟨0, 1, 0, 0, 0, 1⟩ 2 3).2 = (2, 3) :=
  calc_colrow_calc_xy_roundtrip ⟨0, 1, 0, 0, 0, 1⟩ 2 3 (by norm_num)

/-! ## Concrete inputs used by witnesses and counterexamples -/

/-- The spec's concrete scenario: a 10×10 reference raster of all `5`s. -/
def refBandC : Band := ⟨10, 10, fun _ _ => 5⟩

/-- Reference transform `(1000, 1, 0, 2000, 0, -1)`. -/
def refGtC : GeoTransform := ⟨1000, 1, 0, 2000, 0, -1⟩

/-- A 4×4 output tile of all `6`s. -/
def outArrC : PixelArray := ⟨4, 4, fun _ _ => 6⟩

/-- Output transform `(1003, 1, 0, 1997, 0, -1)`. -/
def outGtC : GeoTransform := ⟨1003, 1, 0, 1997, 0, -1⟩

/-- A unit-pixel transform with origin `(0, 0)` and decreasing `y`. -/
def gtI : GeoTransform := ⟨0, 1, 0, 0, 0, -1⟩

/-- When every candidate window read of the scan succeeds, the source-side
candidate loop (which turns a failed read into an uncaught error) agrees
with the spec-side scan. -/
theorem tryCandidates_eq_findFirstShift (rb : Band) (refgt : GeoTransform)
    (outa2 : PixelArray) (nw : ℚ × ℚ) (cf rf : ℤ) (l : List (ℤ × ℤ))
    (h : ∀ off ∈ l, (ReadAsArray rb (cf + off.1) (rf + off.2)
      outa2.ncols outa2.nrows).isSome = true) :
    tryCandidates rb refgt outa2 nw cf rf l =
      Except.ok (findFirstShift rb refgt outa2 nw cf rf l) := by
  induction l with
  | nil => rfl
  | cons off rest ih =>
    have hoff := h off (List.mem_cons_self off rest)
    simp only [tryCandidates, findFirstShift]
    cases hread : ReadAsArray rb (cf + off.1) (rf + off.2)
        outa2.ncols outa2.nrows with
    | none => rw [hread] at hoff; simp at hoff
    | some refouta =>
      by_cases hd : diffsum outa2 refouta = 0
      · simp only [if_pos hd]
      · simp only [if_neg hd]
        exact ih fun o ho => h o (List.mem_cons_of_mem off ho)

/-- C2: when the four candidate window reads succeed, the single-margin
test maps the trimmed array's north-west corner through the output
transform and back through the inverse reference transform, floors to
integers, tests the candidate origins in the fixed order
`(0,0), (0,1), (1,0), (1,1)` (column offset outer), returns
`toGeo(refgt, c, r) - toGeo(outgt, skipw, skipn)` for the first consistent
candidate without testing later ones, and returns no-match (`none`) rather
than raising when no candidate is consistent. -/
theorem calc_shift_skip_eq_spec (rb : Band) (refgt : GeoTransform)
    (outa : PixelArray) (outgt : GeoTransform) (skipw skipn skipe skips : ℕ)
    (h : ∀ off ∈ candOffsets,
      (ReadAsArray rb ((nwFloor refgt outgt skipw skipn).1 + off.1)
        ((nwFloor refgt outgt skipw skipn).2 + off.2)
        (skipArray outa skipw skipn skipe skips).ncols
        (skipArray outa skipw skipn skipe skips).nrows).isSome = true) :
    calc_shift_skip rb refgt outa outgt skipw skipn skipe skips =
      Except.ok (calcShiftSkipSpec rb refgt outa outgt skipw skipn skipe skips) :=
  tryCandidates_eq_findFirstShift rb refgt
    (skipArray outa skipw skipn skipe skips) (outNW outgt skipw skipn)
    (nwFloor refgt outgt skipw skipn).1 (nwFloor refgt outgt skipw skipn).2
    candOffsets h

/-- Witness for C2 on the spec's concrete scenario, whose four candidate
windows all lie inside the 10×10 reference band. -/
theorem calc_shift_skip_eq_spec_witness :
    calc_shift_skip refBandC refGtC outArrC outGtC 0 0 0 0 =
      Except.ok (calcShiftSkipSpec refBandC refGtC outArrC outGtC 0 0 0 0) := by
  apply calc_shift_skip_eq_spec
  have hnw : nwFloor refGtC outGtC 0 0 = (3, 3) := by
    norm_num [nwFloor, outNW, calc_xy, calc_colrow, refGtC, outGtC, Prod.ext_iff]
  intro off hoff
  rw [hnw]
  fin_cases hoff <;> decide

/-- C10: for an output tile with fewer than 3 columns and fewer than 3
rows, `skipwe = floor(ncols/3)` and `skipns = floor(nrows/3)` are both `0`,
so every one of the 15 edge-subset trials repeats the zero-margin
computation and `calc_shift` is the zero-margin trial's result with overlap
mask `0` on success — it never produces a non-zero overlap mask. -/
theorem calc_shift_small_tile (rb : Band) (refgt : GeoTransform)
    (outa : PixelArray) (outgt : GeoTransform)
    (hc : outa.ncols < 3) (hr : outa.nrows < 3) :
    calc_shift rb refgt outa outgt =
      Except.map (Option.map fun s => (s, 0))
        (calc_shift_skip rb refgt outa outgt 0 0 0 0) := by
  have h1 : outa.ncols / 3 = 0 := Nat.div_eq_of_lt hc
  have h2 : outa.nrows / 3 = 0 := Nat.div_eq_of_lt hr
  simp only [calc_shift, h1, h2]
  cases hz : calc_shift_skip rb refgt outa outgt 0 0 0 0 with
  | error e => rfl
  | ok v =>
    cases v with
    | none => rfl
    | some s => rfl

/-- A 2×2 reference band of all `4`s, used by the C10 witness. -/
def refBandSmall : Band := ⟨2, 2, fun _ _ => 4⟩

/-- A 2×2 output tile of all `5`s, used by the C10 witness. -/
def outArrSmall : PixelArray := ⟨2, 2, fun _ _ => 5⟩

/-- Witness for C10 on a 2×2 tile. -/
theorem calc_shift_small_tile_witness :
    calc_shift refBandSmall gtI outArrSmall gtI =
      Except.map (Option.map fun s => (s, 0))
        (calc_shift_skip refBandSmall gtI outArrSmall gtI 0 0 0 0) :=
  calc_shift_small_tile refBandSmall gtI outArrSmall gtI
    (by decide) (by decide)

/-- C8: on the spec's concrete scenario — 10×10 reference of `5`s with
transform `(1000, 1, 0, 2000, 0, -1)` and 4×4 output tile of `6`s with
transform `(1003, 1, 0, 1997, 0, -1)` — `calc_shift` returns shift `(0, 0)`
with overlap mask `0`: the tile's corner maps to reference grid cell
`(3, 3)` and the very first candidate of the zero-margin trial is
consistent. -/
theorem calc_shift_concrete_scenario :
    calc_shift refBandC refGtC outArrC outGtC =
      Except.ok (some ((0, 0), 0)) := by
  have hnw : nwFloor refGtC outGtC 0 0 = (3, 3) := by
    norm_num [nwFloor, outNW, calc_xy, calc_colrow, refGtC, outGtC, Prod.ext_iff]
  have hzero : calc_shift_skip refBandC refGtC outArrC outGtC 0 0 0 0 =
      Except.ok (some (0, 0)) := by
    rw [calc_shift_skip, hnw]
    norm_num [candOffsets, tryCandidates, ReadAsArray, skipArray, diffsum,
      outNW, calc_xy, refBandC, refGtC, outArrC, outGtC, Prod.ext_iff]
  simp only [calc_shift, hzero]

/-- A 1×1 output tile with value `5`, used by the out-of-bounds scenario. -/
def outArrOne : PixelArray := ⟨1, 1, fun _ _ => 5⟩

/-- An output transform whose tile corner maps to the fractional reference
grid point `(-1/2, -1/2)`, so the floored first candidate origin is
`(-1, -1)` — outside the reference band. -/
def outGtHalf : GeoTransform := ⟨-(1 : ℚ)/2, 1, 0, 1/2, 0, -1⟩

/-- C6 evaluation: on a 1×1 tile of value `5` over a 2×2 reference band of
`4`s, the first candidate origin is `(-1, -1)` and its window read runs
beyond the band's extent, so `calc_shift_skip` propagates the read failure
(`Except.error ()`, the uncaught Python exception) instead of treating the
candidate as failing — although the remaining candidate `(0, 0)` is in
bounds and consistent: the claimed per-candidate-failure behaviour
(`calcShiftSkipSpec`) finds the shift `(1/2, -1/2)` on this very input. -/
theorem calc_shift_skip_oob_error :
    calc_shift_skip refBandSmall gtI outArrOne outGtHalf 0 0 0 0 =
        Except.error () ∧
      calcShiftSkipSpec refBandSmall gtI outArrOne outGtHalf 0 0 0 0 =
        some (1/2, -(1 : ℚ)/2) := by
  have hnw : nwFloor gtI outGtHalf 0 0 = (-1, -1) := by
    norm_num [nwFloor, outNW, calc_xy, calc_colrow, gtI, outGtHalf, Prod.ext_iff]
  constructor
  · rw [calc_shift_skip, hnw]
    norm_num [candOffsets, tryCandidates, ReadAsArray, skipArray,
      outNW, calc_xy, refBandSmall, gtI, outArrOne, outGtHalf]
  · rw [calcShiftSkipSpec, hnw]
    norm_num [candOffsets, findFirstShift, ReadAsArray, skipArray, diffsum,
      outNW, calc_xy, refBandSmall, gtI, outArrOne, outGtHalf, Prod.ext_iff]

/-- A 1×2 output tile `[3, 1]`. -/
def outArrMix : PixelArray := ⟨1, 2, fun _ j => if j = 0 then 3 else 1⟩

/-- The 1×2 reference window `[1, 1]` — the window the code reads at the
first candidate origin `(0, 0)` of `refBandMix`. -/
def refWinOnes : PixelArray := ⟨1, 2, fun _ _ => 1⟩

/-- A 2×3 reference band with `1`s in the first two columns of the top row
and `9`s elsewhere; all four candidate windows of a 1×2 tile at its origin
are in bounds. -/
def refBandMix : Band := ⟨2, 3, fun i j => if i = 0 ∧ j < 2 then 1 else 9⟩

/-- Counterexample to C3: over the tile `[3, 1]` and reference window
`[1, 1]`, the exact integer accumulation of `(outputValue - 1) -
referenceValue` claimed by C3 is `(3-1-1) + (1-1-1) = 0`, yet the code's
accumulated sum — whose per-pixel terms are computed in `uint8` arithmetic,
wrapping `1 - 1 - 1 = -1` to `255` — is `256 ≠ 0`, and on the full bands
the single-margin test accordingly reports no match where the claimed
accumulation would declare the first candidate consistent. -/
theorem diffsum_cancellation_cex :
    diffsumSpec outArrMix refWinOnes = 0 ∧
      diffsum outArrMix refWinOnes ≠ 0 ∧
      calc_shift_skip refBandMix gtI outArrMix gtI 0 0 0 0 =
        Except.ok none := by
  refine ⟨by decide, by decide, ?_⟩
  have hnw : nwFloor gtI gtI 0 0 = (0, 0) := by
    norm_num [nwFloor, outNW, calc_xy, calc_colrow, gtI, Prod.ext_iff]
  rw [calc_shift_skip, hnw]
  norm_num [candOffsets, tryCandidates, ReadAsArray, skipArray, diffsum,
    outNW, calc_xy, refBandMix, gtI, outArrMix, Finset.sum_range_succ]

/-- One `uint8` difference term is zero exactly when the output value minus
one is congruent to the reference value modulo `256`. -/
theorem diffterm_eq_zero_iff (o r : ℕ) (ho : o < 255) (hr : r < 256) :
    (o + 511 - r) % 256 = 0 ↔ ((o : ℤ) - 1) % 256 = (r : ℤ) % 256 := by
  omega

/-- C3 (amended): the per-pixel difference `(outputValue - 1) -
referenceValue` is computed in unsigned 8-bit arithmetic, so the code's
consistency sum is zero exactly when every pixel strictly below the no-data
sentinel `255` satisfies `outputValue - 1 ≡ referenceValue (mod 256)` — not
when the exact integer accumulation vanishes; pixels at the sentinel value
never affect the sum, for any values of the corresponding reference
pixels. -/
theorem diffsum_mod256_characterization (outa refa : PixelArray)
    (_hout : ∀ i j, outa.data i j < 256) (href : ∀ i j, refa.data i j < 256) :
    (diffsum outa refa = 0 ↔
      ∀ i < outa.nrows, ∀ j < outa.ncols, outa.data i j < 255 →
        ((outa.data i j : ℤ) - 1) % 256 = (refa.data i j : ℤ) % 256) ∧
    (∀ refb : PixelArray,
      (∀ i j, i < outa.nrows → j < outa.ncols → outa.data i j < 255 →
        refa.data i j = refb.data i j) →
      diffsum outa refa = diffsum outa refb) := by
  have hterms : diffsum outa refa = 0 ↔
      ∀ i ∈ Finset.range outa.nrows, ∀ j ∈ Finset.range outa.ncols,
        (if outa.data i j < 255 then
          (outa.data i j + 511 - refa.data i j) % 256 else 0) = 0 := by
    rw [diffsum]
    constructor
    · intro h i hi j hj
      exact Finset.sum_eq_zero_iff.mp
        (Finset.sum_eq_zero_iff.mp h i hi) j hj
    · intro h
      exact Finset.sum_eq_zero fun i hi => Finset.sum_eq_zero fun j hj => h i hi j hj
  constructor
  · rw [hterms]
    constructor
    · intro h i hi j hj hlt
      have hz := h i (Finset.mem_range.mpr hi) j (Finset.mem_range.mpr hj)
      rw [if_pos hlt] at hz
      exact (diffterm_eq_zero_iff _ _ hlt (href i j)).mp hz
    · intro h i hi j hj
      by_cases hlt : outa.data i j < 255
      · rw [if_pos hlt]
        exact (diffterm_eq_zero_iff _ _ hlt (href i j)).mpr
          (h i (Finset.mem_range.mp hi) j (Finset.mem_range.mp hj) hlt)
      · rw [if_neg hlt]
  · intro refb hagree
    unfold diffsum
    refine Finset.sum_congr rfl fun i hi => Finset.sum_congr rfl fun j hj => ?_
    by_cases hlt : outa.data i j < 255
    · rw [if_pos hlt, if_pos hlt,
        hagree i j (Finset.mem_range.mp hi) (Finset.mem_range.mp hj) hlt]
    · rw [if_neg hlt, if_neg hlt]

/-- Witness for the amended C3 on the 4×4 tile of `6`s against a window of
`5`s. -/
theorem diffsum_mod256_characterization_witness :
    (diffsum outArrC ⟨4, 4, fun _ _ => 5⟩ = 0 ↔
      ∀ i < outArrC.nrows, ∀ j < outArrC.ncols, outArrC.data i j < 255 →
        ((outArrC.data i j : ℤ) - 1) % 256 =
          ((PixelArray.mk 4 4 fun _ _ => 5).data i j : ℤ) % 256) ∧
    (∀ refb : PixelArray,
      (∀ i j, i < outArrC.nrows → j < outArrC.ncols → outArrC.data i j < 255 →
        (PixelArray.mk 4 4 fun _ _ => 5).data i j = refb.data i j) →
      diffsum outArrC ⟨4, 4, fun _ _ => 5⟩ = diffsum outArrC refb) :=
  diffsum_mod256_characterization outArrC ⟨4, 4, fun _ _ => 5⟩
    (fun i j => by norm_num [outArrC]) (fun i j => by norm_num)

/-- Counterexample to C9: no byte-valued tile/window pair is ever declared
consistent through cancellation — consistency (`diffsum = 0`) forces every
counted pixel's `uint8` difference term to be zero individually, so no
counted pixel can have a strictly positive exact difference
`(outputValue - 1) - referenceValue` at all, let alone one cancelling a
negative difference in the accumulated sum. -/
theorem no_cancellation_consistency :
    ¬ ∃ (outa refa : PixelArray),
      (∀ i j, outa.data i j < 256) ∧ (∀ i j, refa.data i j < 256) ∧
      diffsum outa refa = 0 ∧
      ∃ i < outa.nrows, ∃ j < outa.ncols, outa.data i j < 255 ∧
        (0 : ℤ) < (outa.data i j : ℤ) - 1 - (refa.data i j : ℤ) := by
  rintro ⟨outa, refa, _hout, href, hsum, i, hi, j, hj, hlt, hpos⟩
  rw [diffsum] at hsum
  have hz := Finset.sum_eq_zero_iff.mp
    (Finset.sum_eq_zero_iff.mp hsum i (Finset.mem_range.mpr hi))
    j (Finset.mem_range.mpr hj)
  rw [if_pos hlt] at hz
  have hr := href i j
  omega

/-- A 1×2 output tile `[2, 0]`. -/
def outArrWrap : PixelArray := ⟨1, 2, fun _ j => if j = 0 then 2 else 0⟩

/-- A 1×2 reference band `[1, 255]`. -/
def refBandWrap : Band := ⟨1, 2, fun _ j => if j = 0 then 1 else 255⟩

/-- C9 (amended): tiles that are not element-wise equal to the reference
window under the value-minus-1 convention can still be declared consistent
and yield a shift — but only through per-pixel mod-256 wrap-around (an
output pixel `0` matching a reference pixel `255`), never through
cancellation of positive and negative differences: here the tile `[2, 0]`
matches the reference `[1, 255]` although `0 ≠ 255 + 1`. -/
theorem wraparound_consistency :
    calc_shift_skip refBandWrap gtI outArrWrap gtI 0 0 0 0 =
        Except.ok (some (0, 0)) ∧
      outArrWrap.data 0 1 < 255 ∧
      (outArrWrap.data 0 1 : ℤ) ≠ (refBandWrap.data 0 1 : ℤ) + 1 := by
  refine ⟨?_, by decide, by decide⟩
  have hnw : nwFloor gtI gtI 0 0 = (0, 0) := by
    norm_num [nwFloor, outNW, calc_xy, calc_colrow, gtI, Prod.ext_iff]
  rw [calc_shift_skip, hnw]
  norm_num [candOffsets, tryCandidates, ReadAsArray, skipArray, diffsum,
    outNW, calc_xy, refBandWrap, gtI, outArrWrap, Finset.sum_range_succ,
    Prod.ext_iff]

/-- C7: `shift` writes no file when the shift search fails, and when a
shift `(dx, dy)` is found the only file written is a raster whose
geotransform differs from the source's solely in the translation
coefficients `c0` and `c3` (offset by `dx` and `dy`), with pixel data,
no-data value and projection copied unchanged. -/
theorem shift_writes_only_shifted_raster (rb : Band) (refgt : GeoTransform)
    (outrast : Raster) :
    (calc_shift rb refgt outrast.arr outrast.gt = Except.ok none →
      shift rb refgt outrast = Except.ok none) ∧
    (∀ s m, calc_shift rb refgt outrast.arr outrast.gt =
        Except.ok (some (s, m)) →
      shift rb refgt outrast = Except.ok (some
        { gt := { c0 := outrast.gt.c0 + s.1, c1 := outrast.gt.c1,
                  c2 := outrast.gt.c2, c3 := outrast.gt.c3 + s.2,
                  c4 := outrast.gt.c4, c5 := outrast.gt.c5 },
          arr := outrast.arr, nodata := outrast.nodata,
          projection := outrast.projection })) := by
  constructor
  · intro h
    simp [shift, h]
  · intro s m h
    simp [shift, h]

/-- The spec-scenario tile opened as a raster (no-data value `255`). -/
def outRasterC : Raster := ⟨outGtC, outArrC, some 255, 0⟩

/-- Witness for C7 on the spec's concrete scenario, where the found shift
is `(0, 0)` with overlap mask `0`. -/
theorem shift_writes_only_shifted_raster_witness :
    shift refBandC refGtC outRasterC = Except.ok (some
      { gt := { c0 := outRasterC.gt.c0 + 0, c1 := outRasterC.gt.c1,
                c2 := outRasterC.gt.c2, c3 := outRasterC.gt.c3 + 0,
                c4 := outRasterC.gt.c4, c5 := outRasterC.gt.c5 },
        arr := outRasterC.arr, nodata := outRasterC.nodata,
        projection := outRasterC.projection }) :=
  (shift_writes_only_shifted_raster refBandC refGtC outRasterC).2 (0, 0) 0
    (by
      have hnw : nwFloor refGtC outGtC 0 0 = (3, 3) := by
        norm_num [nwFloor, outNW, calc_xy, calc_colrow, refGtC, outGtC,
          Prod.ext_iff]
      have hzero : calc_shift_skip refBandC refGtC outArrC outGtC 0 0 0 0 =
          Except.ok (some (0, 0)) := by
        rw [calc_shift_skip, hnw]
        norm_num [candOffsets, tryCandidates, ReadAsArray, skipArray, diffsum,
          outNW, calc_xy, refBandC, refGtC, outArrC, outGtC, Prod.ext_iff]
      simp only [calc_shift, outRasterC, hzero])

end ShiftTiles
